import Mathlib

/-!
Verification of the finance-news scoring/caching core.

Shallow embedding of the repository's Python sources:
  * `scripts/utils.py`   — deadline / timeout helpers (`time_left`, `clamp_timeout`);
  * `scripts/fetch_news.py` — freshness cache (`get_cached_news`, `save_cache`) and
    the hour-bucketed cache key of `fetch_all_news`;
  * `scripts/score.py`   — linear score interpolation (`calculate_score`), metric
    extraction (`get_latest`, `get_historical`), growth fallback, composite total,
    recommendation bands, and the per-symbol error isolation of `analyze_ticker` /
    `main`.

Python floats are modelled as real numbers (the arithmetic involved — subtraction,
division, comparison, `** (1/3)` via `Real.rpow` — is exact in the idealisation);
wall-clock instants for the deadline helpers are modelled as rationals so the
truncation `int(deadline - now)` stays computable; cache timestamps are natural
numbers of seconds.
-/

/-! ## scripts/utils.py -/

/-- Python `int(x)` on a float: truncation toward zero. -/
def truncToward0 (x : ℚ) : ℤ :=
  if 0 ≤ x then ⌊x⌋ else ⌈x⌉

/-- Model of `time_left(deadline)` from `scripts/utils.py`: `None` if the deadline is
unbounded, otherwise `int(deadline - time.monotonic())` (may be negative). -/
def time_left (now : ℚ) (deadline : Option ℚ) : Option ℤ :=
  match deadline with
  | none => none
  | some d => some (truncToward0 (d - now))

/-- Model of `clamp_timeout(default_timeout, deadline, minimum=1)` from `scripts/utils.py`.
Raising `TimeoutError("Deadline exceeded")` is modelled as `Except.error`. -/
def clamp_timeout (default_timeout : ℤ) (now : ℚ) (deadline : Option ℚ)
    (minimum : ℤ := 1) : Except String ℤ :=
  match time_left now deadline with
  | none => .ok default_timeout
  | some remaining =>
    if remaining ≤ 0 then .error "Deadline exceeded"
    else .ok (max (min default_timeout remaining) minimum)

/-! ## scripts/fetch_news.py — freshness cache

The cache is one JSON file per key under a cache directory; an entry is its
payload together with the file's modification time (seconds).  A cache state
maps keys to entries.  `fetch_all_news` derives its key from the fixed source
identifier `"all_news"` concatenated with `datetime.now().strftime('%Y%m%d_%H')`,
i.e. the current time truncated to the hour; the f-string is injective on the
(source, hour-bucket) pair, which we model as the pair itself. -/

/-- A cache state: payload and storage time (seconds) per key. -/
def CacheState (κ α : Type) : Type := κ → Option (α × ℕ)

/-- The empty cache directory. -/
def emptyCache (κ α : Type) : CacheState κ α := fun _ => none

/-- Model of `get_cached_news(cache_key)`: return the payload if the entry exists and
`datetime.now() - mtime < timedelta(minutes=15)`.  (A future `mtime` gives a
negative age, which is still `< 15 min` — natural subtraction models this.) -/
def get_cached_news {κ α : Type} (st : CacheState κ α) (now : ℕ) (key : κ) :
    Option α :=
  match st key with
  | none => none
  | some (payload, mtime) => if now - mtime < 15 * 60 then some payload else none

/-- Model of `save_cache(cache_key, data)`: store/overwrite the payload under `key`
with the current time as storage time. -/
def save_cache {κ α : Type} [DecidableEq κ] (st : CacheState κ α) (key : κ)
    (payload : α) (now : ℕ) : CacheState κ α :=
  fun k => if k = key then some (payload, now) else st k

/-- Key derivation of `fetch_all_news`: source identifier together with the
current time truncated to the hour (`strftime('%Y%m%d_%H')` ≅ `now / 3600`). -/
def allNewsKey (now : ℕ) : String × ℕ :=
  ("all_news", now / 3600)

/-- Model of `fetch_all_news`: unless `--force` is set, consult the cache first and
return the cached payload on a hit; on a miss (or with `--force`) fetch fresh
data and save it to the cache.  `fresh` stands for the payload the RSS fetch
would assemble; the function returns the payload printed and the new state. -/
def fetch_all_news {α : Type} (force : Bool) (st : CacheState (String × ℕ) α)
    (now : ℕ) (fresh : α) : α × CacheState (String × ℕ) α :=
  let key := allNewsKey now
  if force then
    (fresh, save_cache st key fresh now)
  else
    match get_cached_news st now key with
    | some cached => (cached, st)
    | none => (fresh, save_cache st key fresh now)

/-! ## scripts/score.py -/

/-- Model of `calculate_score(val, min_val, max_val, max_points)`: linear interpolation
of the score between `min_val` (floor) and `max_val` (ceiling). -/
noncomputable def calculate_score (val min_val max_val max_points : ℝ) : ℝ :=
  if val ≥ max_val then max_points
  else if val ≤ min_val then 0
  else ((val - min_val) / (max_val - min_val)) * max_points

/-- A financial statement as returned by the data provider: a table whose rows
are line items and whose columns are periods ordered most-recent-first.
`ncols` is the number of periods (`len(df.columns)`); a well-formed table has
every row of that length. -/
structure Statement where
  ncols : ℕ
  rows : List (String × List ℝ)

/-- Model of `df.empty` in pandas: true when the frame has no rows or no columns. -/
def Statement.isEmpty (df : Statement) : Bool :=
  df.rows.isEmpty || df.ncols == 0

/-- Model of `get_latest(df, key)` from `analyze_ticker`: the most recent period's value
(`df.loc[key].iloc[0]`) when the row exists; `0` when the key is absent or any
access raises (e.g. the row is empty). -/
def get_latest (df : Statement) (key : String) : ℝ :=
  match df.rows.lookup key with
  | some vs => vs.headD 0
  | none => 0

/-- Model of `get_historical(df, key, years_back=3)` from `analyze_ticker`: the value at
column index `min(years_back, len(df.columns) - 1)` when the row exists, `None`
when the key is absent or the access raises (out-of-range index on an empty
row; natural subtraction makes `ncols = 0` land on index `0`, which misses an
empty row just as `iloc[-1]` raises in Python). -/
def get_historical (df : Statement) (key : String) (years_back : ℕ := 3) :
    Option ℝ :=
  match df.rows.lookup key with
  | some vs => vs[min years_back (df.ncols - 1)]?
  | none => none

/-- The growth block of `analyze_ticker` (score.py lines 84–102): primary
metric is 3-year FCF CAGR; inside the `ocf_3y is not None` branch, a failed
positivity check falls back to 3-year revenue CAGR when a positive 3-period
revenue baseline exists.  Returns the growth value and the metric label.
`Real.rpow` models Python's float `**`. -/
noncomputable def fcfGrowthCalc (fcf : ℝ) (ocf_3y capex_3y : Option ℝ)
    (revenue : ℝ) (rev_3y : Option ℝ) : ℝ × String :=
  match ocf_3y with
  | none => (0, "FCF CAGR (3y)")
  | some o =>
    let fcf_3y := o - |capex_3y.getD 0|
    if fcf_3y > 0 ∧ fcf > 0 then
      (((fcf / fcf_3y) ^ ((1 : ℝ) / 3) - 1) * 100, "FCF CAGR (3y)")
    else
      match rev_3y with
      | some r =>
        if r > 0 then
          (((revenue / r) ^ ((1 : ℝ) / 3) - 1) * 100, "Rev CAGR (3y) [FCF invalid]")
        else (0, "FCF CAGR (3y)")
      | none => (0, "FCF CAGR (3y)")

/-- The composite total of `analyze_ticker` (score.py line 118): the four
factor scores with their fixed floor/ceiling/weight parameters, summed. -/
noncomputable def qcsTotal (roic fcf_margin fcf_growth fcf_yield : ℝ) : ℝ :=
  calculate_score roic 10 20 35 + calculate_score fcf_margin 10 25 25 +
    calculate_score fcf_growth 5 15 20 + calculate_score fcf_yield 2 4 20

/-- The recommendation bands of `analyze_ticker` (score.py lines 121–129). -/
noncomputable def recommendation (total_score : ℝ) : String :=
  if total_score ≥ 70 then "BUY / ACCUMULATE"
  else if total_score ≥ 50 then "HOLD"
  else "PASS / SELL"

/-- The `info` mapping of a ticker, as consumed by `analyze_ticker`. -/
structure Info where
  marketCap : Option ℝ
  currentPrice : Option ℝ
  previousClose : Option ℝ
  sharesOutstanding : Option ℝ

/-- The full financial snapshot fetched for a symbol: the three statements and
the info mapping. -/
structure RawData where
  income : Statement
  balance : Statement
  cashflow : Statement
  info : Info

/-- Python truthiness of an optional float: `None` and `0` are falsy. -/
noncomputable def optTruthy (o : Option ℝ) : Bool :=
  match o with
  | none => false
  | some x => decide (x ≠ 0)

/-- Python `a or b` on optional floats: `b` when `a` is falsy. -/
noncomputable def pyOr (a b : Option ℝ) : Option ℝ :=
  if optTruthy a then a else b

/-- The market-cap resolution of `analyze_ticker` (score.py lines 105–113):
when `marketCap` is falsy, try to reconstruct it as `price * shares` with the
price preferring `currentPrice` over `previousClose`; when that also fails the
original (falsy) value is kept. -/
noncomputable def effMarketCap (i : Info) : Option ℝ :=
  if optTruthy i.marketCap then i.marketCap
  else
    let price := pyOr i.currentPrice i.previousClose
    if optTruthy price ∧ optTruthy i.sharesOutstanding then
      some (price.getD 0 * i.sharesOutstanding.getD 0)
    else i.marketCap

/-- The per-symbol report assembled by `analyze_ticker` (scores and total kept
at full precision; the Python code rounds only for display). -/
structure ScoreReport where
  symbol : String
  price : Option ℝ
  total : ℝ
  recBand : String
  growthLabel : String
  scoreRoic : ℝ
  scoreMargin : ℝ
  scoreGrowth : ℝ
  scoreVal : ℝ

/-- Model of `analyze_ticker(ticker_symbol)` from `scripts/score.py`.  The external
fetch (yfinance) is the argument: `Except.error e` models an exception from
the data provider, `Except.ok` a fetched snapshot.  A symbol-level error
record `{"error": ...}` is modelled as `Except.error`. -/
noncomputable def analyze_ticker (fetched : Except String RawData)
    (symbol : String) : Except String ScoreReport :=
  match fetched with
  | .error e => .error ("Failed to fetch data: " ++ e)
  | .ok d =>
    if d.income.isEmpty || d.balance.isEmpty || d.cashflow.isEmpty then
      .error "Missing financial statements"
    else
      let ebit0 := get_latest d.income "Ebit"
      let ebit := if ebit0 = 0 then get_latest d.income "Operating Income" else ebit0
      let tax_provision := get_latest d.income "Tax Provision"
      let pretax_income := get_latest d.income "Pretax Income"
      let tax_rate := if pretax_income ≠ 0 then tax_provision / pretax_income else 0.21
      let nopat := ebit * (1 - tax_rate)
      let total_assets := get_latest d.balance "Total Assets"
      let current_liabs := get_latest d.balance "Current Liabilities"
      let invested_capital := total_assets - current_liabs
      let roic := if invested_capital ≠ 0 then nopat / invested_capital * 100 else 0
      let ocf := get_latest d.cashflow "Operating Cash Flow"
      let capex := get_latest d.cashflow "Capital Expenditure"
      let fcf := ocf - |capex|
      let revenue := get_latest d.income "Total Revenue"
      let fcf_margin := if revenue ≠ 0 then fcf / revenue * 100 else 0
      let ocf_3y := get_historical d.cashflow "Operating Cash Flow" 3
      let capex_3y := get_historical d.cashflow "Capital Expenditure" 3
      let rev_3y := get_historical d.income "Total Revenue" 3
      let growth := fcfGrowthCalc fcf ocf_3y capex_3y revenue rev_3y
      let mcap := effMarketCap d.info
      let fcf_yield := if optTruthy mcap then fcf / mcap.getD 0 * 100 else 0
      let total_score := qcsTotal roic fcf_margin growth.1 fcf_yield
      .ok
        { symbol := symbol
          price := d.info.currentPrice
          total := total_score
          recBand := recommendation total_score
          growthLabel := growth.2
          scoreRoic := calculate_score roic 10 20 35
          scoreMargin := calculate_score fcf_margin 10 25 25
          scoreGrowth := calculate_score growth.1 5 15 20
          scoreVal := calculate_score fcf_yield 2 4 20 }

/-- One printed outcome of the `main` loop: an error line or a report block. -/
inductive OutLine where
  | err (symbol msg : String)
  | report (r : ScoreReport)

/-- The batch loop of `main` (score.py lines 181–195): analyze each requested
symbol in the caller-supplied order; an error prints an error line and
`continue`s to the next symbol.  Each symbol comes with its fetch outcome. -/
noncomputable def mainLoop : List (String × Except String RawData) → List OutLine
  | [] => []
  | (sym, fetched) :: rest =>
    match analyze_ticker fetched sym with
    | .error e => OutLine.err sym e :: mainLoop rest
    | .ok r => OutLine.report r :: mainLoop rest

/-! ## Helper lemmas -/

/-- Closed form of `calculate_score`: the interpolation ratio clamped to
`[0, 1]`, times the weight (valid whenever the floor is below the ceiling). -/
theorem calculate_score_eq_clamped (f c w : ℝ) (hfc : f < c) (v : ℝ) :
    calculate_score v f c w = max 0 (min 1 ((v - f) / (c - f))) * w := by
  have hpos : (0 : ℝ) < c - f := by linarith
  unfold calculate_score
  split_ifs with h1 h2
  · have hr : (1 : ℝ) ≤ (v - f) / (c - f) := by
      rw [le_div_iff₀ hpos]; linarith
    rw [min_eq_left hr, max_eq_right (by norm_num : (0:ℝ) ≤ 1), one_mul]
  · have hr : (v - f) / (c - f) ≤ 0 :=
      div_nonpos_of_nonpos_of_nonneg (by linarith) hpos.le
    rw [min_eq_right (hr.trans (by norm_num)), max_eq_left hr, zero_mul]
  · push_neg at h1 h2
    have hr0 : 0 < (v - f) / (c - f) := div_pos (by linarith) hpos
    have hr1 : (v - f) / (c - f) < 1 := (div_lt_one hpos).2 (by linarith)
    rw [min_eq_right hr1.le, max_eq_right hr0.le]

/-- A nonnegative weight keeps the awarded score within `[0, weight]`. -/
theorem calculate_score_bounds (v f c w : ℝ) (hfc : f < c) (hw : 0 ≤ w) :
    0 ≤ calculate_score v f c w ∧ calculate_score v f c w ≤ w := by
  rw [calculate_score_eq_clamped f c w hfc]
  refine ⟨mul_nonneg (le_max_left 0 _) hw, ?_⟩
  exact mul_le_of_le_one_left hw (max_le (by norm_num) (min_le_left _ _))

/-! ## Claim theorems -/

/-- C2 counterexample: with the only stated side condition `floor < ceiling`,
monotonicity fails for a negative weight — at `(floor, ceiling, weight) =
(0, 1, −1)` the score drops from `0` (at `val = 0`) to `−1/2` (at `val = 1/2`). -/
theorem C2_counterexample :
    ¬ Monotone (fun v : ℝ => calculate_score v 0 1 (-1)) := by
  intro h
  have hle := h (by norm_num : (0 : ℝ) ≤ 1 / 2)
  have e0 : calculate_score 0 0 1 (-1) = 0 := by
    unfold calculate_score; norm_num
  have e1 : calculate_score (1 / 2 : ℝ) 0 1 (-1) = -(1 / 2) := by
    unfold calculate_score; norm_num
  simp only [e0, e1] at hle
  linarith

/-- C2 (amended): for `floor < ceiling`, `calculate_score` equals the weight at
or above the ceiling, `0` at or below the floor, and the linear interpolation
strictly between; it is continuous (hence piecewise-linear with matching
boundary values), and it is monotone non-decreasing whenever the weight is
nonnegative (monotonicity fails for negative weights). -/
theorem C2_calculate_score_shape (f c w : ℝ) (hfc : f < c) :
    (∀ v, v ≥ c → calculate_score v f c w = w) ∧
    (∀ v, v ≤ f → calculate_score v f c w = 0) ∧
    (∀ v, f < v → v < c → calculate_score v f c w = (v - f) / (c - f) * w) ∧
    Continuous (fun v => calculate_score v f c w) ∧
    (0 ≤ w → Monotone (fun v => calculate_score v f c w)) := by
  have hpos : (0 : ℝ) < c - f := by linarith
  have hrw : (fun v => calculate_score v f c w)
      = fun v => max 0 (min 1 ((v - f) / (c - f))) * w :=
    funext (calculate_score_eq_clamped f c w hfc)
  refine ⟨?_, ?_, ?_, ?_, ?_⟩
  · intro v hv
    unfold calculate_score
    rw [if_pos hv]
  · intro v hv
    unfold calculate_score
    rw [if_neg (by simp only [ge_iff_le, not_le]; linarith), if_pos hv]
  · intro v h1 h2
    unfold calculate_score
    rw [if_neg (by simp only [ge_iff_le, not_le]; linarith),
      if_neg (by simp only [not_le]; linarith)]
  · rw [hrw]
    exact (continuous_const.max (continuous_const.min
      ((continuous_id.sub continuous_const).div_const _))).mul continuous_const
  · intro hw
    rw [hrw]
    have hsub : Monotone fun v : ℝ => v - f := fun a b hab => sub_le_sub_right hab f
    exact ((monotone_const.max (monotone_const.min
      (hsub.div_const hpos.le)))).mul_const hw

/-- Witness for C2: concrete instances of each clause at the program's actual
parameter tuples. -/
theorem C2_witness :
    calculate_score 25 10 20 35 = 35 ∧
    calculate_score 17.5 10 25 25 = (17.5 - 10) / (25 - 10) * 25 ∧
    Monotone (fun v : ℝ => calculate_score v 5 15 20) :=
  ⟨(C2_calculate_score_shape 10 20 35 (by norm_num)).1 25 (by norm_num),
   (C2_calculate_score_shape 10 25 25 (by norm_num)).2.2.1 17.5 (by norm_num)
     (by norm_num),
   (C2_calculate_score_shape 5 15 20 (by norm_num)).2.2.2.2 (by norm_num)⟩

/-- C6: each of the four factor scores lies in `[0, max]` — `35` for ROIC, `25`
for FCF Margin, `20` for Growth, `20` for Valuation — and the composite total,
the sum of the four awarded scores, lies in `[0, 100]`, whatever the raw ratio
values of the analyzed snapshot are. -/
theorem C6_composite_bounds (roic fcf_margin fcf_growth fcf_yield : ℝ) :
    (0 ≤ calculate_score roic 10 20 35 ∧ calculate_score roic 10 20 35 ≤ 35) ∧
    (0 ≤ calculate_score fcf_margin 10 25 25 ∧
      calculate_score fcf_margin 10 25 25 ≤ 25) ∧
    (0 ≤ calculate_score fcf_growth 5 15 20 ∧
      calculate_score fcf_growth 5 15 20 ≤ 20) ∧
    (0 ≤ calculate_score fcf_yield 2 4 20 ∧
      calculate_score fcf_yield 2 4 20 ≤ 20) ∧
    0 ≤ qcsTotal roic fcf_margin fcf_growth fcf_yield ∧
    qcsTotal roic fcf_margin fcf_growth fcf_yield ≤ 100 := by
  have h1 := calculate_score_bounds roic 10 20 35 (by norm_num) (by norm_num)
  have h2 := calculate_score_bounds fcf_margin 10 25 25 (by norm_num) (by norm_num)
  have h3 := calculate_score_bounds fcf_growth 5 15 20 (by norm_num) (by norm_num)
  have h4 := calculate_score_bounds fcf_yield 2 4 20 (by norm_num) (by norm_num)
  obtain ⟨a1, b1⟩ := h1
  obtain ⟨a2, b2⟩ := h2
  obtain ⟨a3, b3⟩ := h3
  obtain ⟨a4, b4⟩ := h4
  refine ⟨⟨a1, b1⟩, ⟨a2, b2⟩, ⟨a3, b3⟩, ⟨a4, b4⟩, ?_, ?_⟩ <;> unfold qcsTotal <;>
    linarith

/-- C7: the recommendation bands have inclusive lower bounds — a total `≥ 70`
is BUY/ACCUMULATE, `50 ≤ total < 70` is HOLD, `< 50` is PASS/SELL; in
particular exactly `70` is BUY and exactly `50` is HOLD. -/
theorem C7_recommendation_bands (t : ℝ) :
    (70 ≤ t → recommendation t = "BUY / ACCUMULATE") ∧
    (50 ≤ t → t < 70 → recommendation t = "HOLD") ∧
    (t < 50 → recommendation t = "PASS / SELL") ∧
    recommendation 70 = "BUY / ACCUMULATE" ∧
    recommendation 50 = "HOLD" := by
  refine ⟨?_, ?_, ?_, ?_, ?_⟩
  · intro h
    unfold recommendation
    rw [if_pos h]
  · intro h1 h2
    unfold recommendation
    rw [if_neg (by simp only [ge_iff_le, not_le]; linarith), if_pos h1]
  · intro h
    unfold recommendation
    rw [if_neg (by simp only [ge_iff_le, not_le]; linarith),
      if_neg (by simp only [ge_iff_le, not_le]; linarith)]
  · unfold recommendation
    rw [if_pos (by norm_num : (70 : ℝ) ≥ 70)]
  · unfold recommendation
    rw [if_neg (by norm_num : ¬((50 : ℝ) ≥ 70)), if_pos (by norm_num : (50 : ℝ) ≥ 50)]

/-- Witness for C7 at totals 80, 60 and 30. -/
theorem C7_witness :
    recommendation 80 = "BUY / ACCUMULATE" ∧
    recommendation 60 = "HOLD" ∧
    recommendation 30 = "PASS / SELL" :=
  ⟨(C7_recommendation_bands 80).1 (by norm_num),
   (C7_recommendation_bands 60).2.1 (by norm_num) (by norm_num),
   (C7_recommendation_bands 30).2.2.1 (by norm_num)⟩

/-- Unfolding of `clamp_timeout` on a bounded deadline. -/
theorem clamp_timeout_some (dt m : ℤ) (now d : ℚ) :
    clamp_timeout dt now (some d) m
      = if truncToward0 (d - now) ≤ 0 then .error "Deadline exceeded"
        else .ok (max (min dt (truncToward0 (d - now))) m) := rfl

/-- C3: `clamp_timeout` returns the default timeout unchanged when the
deadline is unbounded; fails with the deadline-exceeded error when the
remaining time (as reported by `time_left`) is `≤ 0`; and otherwise returns
`max(min(default_timeout, remaining), minimum)`, which is never below
`minimum` even when `minimum` exceeds the remaining budget. -/
theorem C3_clamp_timeout (dt m : ℤ) (now : ℚ) :
    clamp_timeout dt now none m = .ok dt ∧
    (∀ d : ℚ, truncToward0 (d - now) ≤ 0 →
      clamp_timeout dt now (some d) m = .error "Deadline exceeded") ∧
    (∀ d : ℚ, 0 < truncToward0 (d - now) →
      clamp_timeout dt now (some d) m
        = .ok (max (min dt (truncToward0 (d - now))) m) ∧
      m ≤ max (min dt (truncToward0 (d - now))) m) := by
  refine ⟨rfl, ?_, ?_⟩
  · intro d h
    rw [clamp_timeout_some, if_pos h]
  · intro d h
    rw [clamp_timeout_some, if_neg (by omega)]
    exact ⟨rfl, le_max_right _ _⟩

/-- Witness for C3: unbounded deadline, expired deadline, and a 10-second
budget clamping a 30-second default. -/
theorem C3_witness :
    clamp_timeout 30 0 none 1 = .ok 30 ∧
    clamp_timeout 30 0 (some (-5)) 1 = .error "Deadline exceeded" ∧
    clamp_timeout 30 0 (some 10) 1 = .ok (max (min 30 (truncToward0 (10 - 0))) 1) :=
  ⟨(C3_clamp_timeout 30 1 0).1,
   (C3_clamp_timeout 30 1 0).2.1 (-5) (by
    unfold truncToward0
    rw [if_neg (by norm_num),
      show ((-5 : ℚ) - 0) = ((-5 : ℤ) : ℚ) by norm_num, Int.ceil_intCast]
    norm_num),
   ((C3_clamp_timeout 30 1 0).2.2 10 (by
    unfold truncToward0
    rw [if_pos (by norm_num),
      show ((10 : ℚ) - 0) = ((10 : ℤ) : ℚ) by norm_num, Int.floor_intCast]
    norm_num)).1⟩

/-- C10: because `time_left` truncates `deadline - now` to an integer, a
bounded deadline with strictly less than one full second remaining (though
not yet passed) truncates to `0` and `clamp_timeout` fails with the
deadline-exceeded error. -/
theorem C10_subsecond_deadline (dt m : ℤ) (now d : ℚ)
    (h1 : now < d) (h2 : d - now < 1) :
    clamp_timeout dt now (some d) m = .error "Deadline exceeded" := by
  have htr : truncToward0 (d - now) = 0 := by
    unfold truncToward0
    rw [if_pos (by linarith)]
    exact Int.floor_eq_zero_iff.mpr ⟨by linarith, by linarith⟩
  rw [clamp_timeout_some, htr, if_pos le_rfl]

/-- Witness for C10: half a second remaining. -/
theorem C10_witness :
    clamp_timeout 30 0 (some (1 / 2)) 1 = .error "Deadline exceeded" :=
  C10_subsecond_deadline 30 1 0 (1 / 2) (by norm_num) (by norm_num)

/-- C5: a `put` (save_cache) immediately followed by a `get` while the entry's
age is strictly below 15 minutes returns the identical payload; a `get` with
no entry for the key, or when the age is 15 minutes or more, is a miss. -/
theorem C5_cache_ttl {κ α : Type} [DecidableEq κ] (st : CacheState κ α)
    (k : κ) (p : α) (t now : ℕ) :
    (now - t < 15 * 60 → get_cached_news (save_cache st k p t) now k = some p) ∧
    (st k = none → get_cached_news st now k = none) ∧
    (∀ q t0, st k = some (q, t0) → 15 * 60 ≤ now - t0 →
      get_cached_news st now k = none) := by
  refine ⟨?_, ?_, ?_⟩
  · intro h
    simp [get_cached_news, save_cache, h]
  · intro h
    unfold get_cached_news
    rw [h]
  · intro q t0 h h15
    unfold get_cached_news
    rw [h]
    exact if_neg (by omega)

/-- Witness for C5: a round trip after 100 seconds, a miss on an absent key,
and a miss after 1900 seconds. -/
theorem C5_witness :
    get_cached_news (save_cache (emptyCache ℕ ℕ) 7 42 100) 200 7 = some 42 ∧
    get_cached_news (emptyCache ℕ ℕ) 200 7 = none ∧
    get_cached_news (save_cache (emptyCache ℕ ℕ) 7 42 100) 2000 7 = none :=
  ⟨(C5_cache_ttl (emptyCache ℕ ℕ) 7 42 100 200).1 (by norm_num),
   (C5_cache_ttl (emptyCache ℕ ℕ) 7 42 100 200).2.1 rfl,
   (C5_cache_ttl (save_cache (emptyCache ℕ ℕ) 7 42 100) 7 0 0 2000).2.2 42 100
     (by simp [save_cache]) (by norm_num)⟩

/-- C4 counterexample: two non-forced calls in the same clock hour (times 0
and 960 s, both in hour bucket 0) do not both hit — the second call is 16
minutes after the entry was stored, so the 15-minute TTL makes it miss and
refetch (it returns the fresh payload `2`, not the cached payload `1`). -/
theorem C4_counterexample :
    allNewsKey 960 = allNewsKey 0 ∧
    (fetch_all_news false
      (fetch_all_news false (emptyCache (String × ℕ) ℕ) 0 1).2 960 2).1 = 2 ∧
    (2 : ℕ) ≠ 1 := by
  refine ⟨rfl, ?_, by decide⟩
  rfl

/-- C4 (amended): starting from a state with no entry under the first call's
key, a repeated non-forced `fetch_all_news` in the same clock hour *and*
strictly less than 15 minutes after the entry was stored returns the cached
payload (and leaves the state unchanged); a call in a new clock hour, for
whose key no entry exists, always misses and refetches (saving the fresh
payload).  The hour-bucketed key alone does not guarantee a same-hour hit:
the 15-minute TTL of `get_cached_news` still applies. -/
theorem C4_hour_bucket_cache {α : Type} (st : CacheState (String × ℕ) α)
    (t1 t2 : ℕ) (f1 f2 : α) (hmiss : st (allNewsKey t1) = none) :
    (t1 / 3600 = t2 / 3600 → t2 - t1 < 15 * 60 →
      fetch_all_news false (fetch_all_news false st t1 f1).2 t2 f2
        = (f1, (fetch_all_news false st t1 f1).2)) ∧
    (t1 / 3600 ≠ t2 / 3600 → st (allNewsKey t2) = none →
      fetch_all_news false (fetch_all_news false st t1 f1).2 t2 f2
        = (f2, save_cache (fetch_all_news false st t1 f1).2 (allNewsKey t2) f2 t2)) := by
  have h1 : fetch_all_news false st t1 f1 = (f1, save_cache st (allNewsKey t1) f1 t1) := by
    unfold fetch_all_news
    simp [get_cached_news, hmiss]
  constructor
  · intro hh httl
    have hk : allNewsKey t2 = allNewsKey t1 := by
      unfold allNewsKey
      rw [hh]
    rw [h1]
    unfold fetch_all_news
    simp only [hk, Bool.false_eq_true, if_false]
    have hhit : get_cached_news (save_cache st (allNewsKey t1) f1 t1) t2 (allNewsKey t1)
        = some f1 := by
      simp [get_cached_news, save_cache, httl]
    rw [hhit]
  · intro hh hnone
    have hk : allNewsKey t2 ≠ allNewsKey t1 := by
      intro hcontra
      exact hh ((congrArg Prod.snd hcontra).symm)
    rw [h1]
    unfold fetch_all_news
    simp only [Bool.false_eq_true, if_false]
    have hmiss2 : get_cached_news (save_cache st (allNewsKey t1) f1 t1) t2 (allNewsKey t2)
        = none := by
      unfold get_cached_news save_cache
      rw [if_neg hk, hnone]
    rw [hmiss2]

/-- Witness for C4: a hit 100 seconds into the same hour, and a miss in the
next hour. -/
theorem C4_witness :
    fetch_all_news false (fetch_all_news false (emptyCache (String × ℕ) ℕ) 0 1).2 100 2
      = (1, (fetch_all_news false (emptyCache (String × ℕ) ℕ) 0 1).2) ∧
    fetch_all_news false (fetch_all_news false (emptyCache (String × ℕ) ℕ) 0 1).2 7200 2
      = (2, save_cache (fetch_all_news false (emptyCache (String × ℕ) ℕ) 0 1).2
          (allNewsKey 7200) 2 7200) :=
  ⟨(C4_hour_bucket_cache (emptyCache (String × ℕ) ℕ) 0 100 1 2 rfl).1 rfl (by norm_num),
   (C4_hour_bucket_cache (emptyCache (String × ℕ) ℕ) 0 7200 1 2 rfl).2 (by norm_num) rfl⟩

/-- C1 counterexample: with the 3-period-back OCF baseline absent
(`ocf_3y = None`) but a positive 3-period-back revenue (`100`, current revenue
`800`), the code keeps growth `0` and the primary label — it never reaches the
revenue fallback, although the claim demands revenue CAGR
`((800/100)^(1/3) − 1) * 100 = 100` with the fallback label. -/
theorem C1_counterexample :
    fcfGrowthCalc 100 none none 800 (some 100) = (0, "FCF CAGR (3y)") ∧
    (((800 : ℝ) / 100) ^ ((1 : ℝ) / 3) - 1) * 100 = 100 ∧
    "FCF CAGR (3y)" ≠ "Rev CAGR (3y) [FCF invalid]" := by
  refine ⟨rfl, ?_, by decide⟩
  have h8 : ((800 : ℝ) / 100) = (2 : ℝ) ^ (3 : ℕ) := by norm_num
  have hcbrt : ((2 : ℝ) ^ (3 : ℕ)) ^ ((1 : ℝ) / 3) = 2 := by
    rw [← Real.rpow_natCast 2 3, ← Real.rpow_mul (by norm_num : (0 : ℝ) ≤ 2)]
    norm_num
  rw [h8, hcbrt]
  norm_num

/-- C1 (amended): the revenue fallback fires only inside the
`ocf_3y is not None` branch — when the baseline OCF is present but the derived
`FCF_3y` or the current FCF is non-positive and a strictly positive
3-period-back revenue exists, growth is `((Revenue/Revenue_3y)^(1/3) − 1) * 100`
with the fallback label; when the baseline OCF is absent, growth is `0` with
the primary label regardless of revenue; and when the fallback revenue is
missing or non-positive, growth is `0` with the primary label. -/
theorem C1_growth_fallback (fcf revenue o : ℝ) (capex_3y rev_3y : Option ℝ) :
    (fcfGrowthCalc fcf none capex_3y revenue rev_3y = (0, "FCF CAGR (3y)")) ∧
    (¬(o - |capex_3y.getD 0| > 0 ∧ fcf > 0) → ∀ r : ℝ, r > 0 →
      fcfGrowthCalc fcf (some o) capex_3y revenue (some r)
        = (((revenue / r) ^ ((1 : ℝ) / 3) - 1) * 100, "Rev CAGR (3y) [FCF invalid]")) ∧
    (¬(o - |capex_3y.getD 0| > 0 ∧ fcf > 0) →
      (∀ r : ℝ, ¬(r > 0) →
        fcfGrowthCalc fcf (some o) capex_3y revenue (some r) = (0, "FCF CAGR (3y)")) ∧
      fcfGrowthCalc fcf (some o) capex_3y revenue none = (0, "FCF CAGR (3y)")) := by
  refine ⟨rfl, ?_, ?_⟩
  · intro h r hr
    simp only [fcfGrowthCalc]
    rw [if_neg h, if_pos hr]
  · intro h
    constructor
    · intro r hr
      simp only [fcfGrowthCalc]
      rw [if_neg h, if_neg hr]
    · simp only [fcfGrowthCalc]
      rw [if_neg h]

/-- Witness for C1: `OCF_3y = 10`, `CapEx_3y = 2` (so `FCF_3y = 8 > 0`) but a
negative current FCF triggers the revenue fallback with `Revenue_3y = 100`. -/
theorem C1_witness :
    fcfGrowthCalc (-1) (some 10) (some 2) 800 (some 100)
      = ((((800 : ℝ) / 100) ^ ((1 : ℝ) / 3) - 1) * 100, "Rev CAGR (3y) [FCF invalid]") :=
  (C1_growth_fallback (-1) 800 10 (some 2) (some 100)).2.1
    (by
      intro hc
      have := hc.2
      norm_num at this)
    100 (by norm_num)

/-- C8: `get_latest` returns the most recent period's value when the row is
present (and `0` when the key is absent or the row is empty); `get_historical`
returns the value `years_back` periods prior, clamped to the oldest available
period when the statement has fewer periods than requested, and `None` — not
zero — when the key is missing. -/
theorem C8_metric_extraction (df : Statement) (key : String) (yb : ℕ) :
    (df.rows.lookup key = none →
      get_latest df key = 0 ∧ get_historical df key yb = none) ∧
    (∀ (v : ℝ) (vs : List ℝ), df.rows.lookup key = some (v :: vs) →
      get_latest df key = v) ∧
    (df.rows.lookup key = some [] → get_latest df key = 0) ∧
    (∀ vs : List ℝ, df.rows.lookup key = some vs → vs.length = df.ncols →
      (yb < df.ncols → get_historical df key yb = vs[yb]?) ∧
      (0 < df.ncols → df.ncols ≤ yb →
        get_historical df key yb = vs[df.ncols - 1]?)) := by
  refine ⟨?_, ?_, ?_, ?_⟩
  · intro h
    unfold get_latest get_historical
    rw [h]
    exact ⟨rfl, rfl⟩
  · intro v vs h
    unfold get_latest
    rw [h]
    rfl
  · intro h
    unfold get_latest
    rw [h]
    rfl
  · intro vs h hlen
    constructor
    · intro hy
      unfold get_historical
      rw [h, min_eq_left (by omega)]
    · intro hpos hy
      unfold get_historical
      rw [h, min_eq_right (by omega)]

/-- Witness for C8 on a two-period revenue table: latest value, clamping of a
3-period lookback to the oldest column, and the absent-key defaults. -/
theorem C8_witness :
    get_latest ⟨2, [("Total Revenue", [5, 7])]⟩ "Total Revenue" = 5 ∧
    get_historical ⟨2, [("Total Revenue", [5, 7])]⟩ "Total Revenue" 3 = some 7 ∧
    get_latest ⟨2, [("Total Revenue", [5, 7])]⟩ "Ebit" = 0 ∧
    get_historical ⟨2, [("Total Revenue", [5, 7])]⟩ "Ebit" 3 = none :=
  ⟨(C8_metric_extraction ⟨2, [("Total Revenue", [5, 7])]⟩ "Total Revenue" 3).2.1
      5 [7] rfl,
   (((C8_metric_extraction ⟨2, [("Total Revenue", [5, 7])]⟩ "Total Revenue" 3).2.2.2
      [5, 7] rfl rfl).2 (by norm_num) (by norm_num)).trans rfl,
   ((C8_metric_extraction ⟨2, [("Total Revenue", [5, 7])]⟩ "Ebit" 3).1 rfl).1,
   ((C8_metric_extraction ⟨2, [("Total Revenue", [5, 7])]⟩ "Ebit" 3).1 rfl).2⟩

/-- The outcome `main` prints for one job (symbol plus fetch result). -/
noncomputable def mainOut (job : String × Except String RawData) : OutLine :=
  match analyze_ticker job.2 job.1 with
  | .error e => OutLine.err job.1 e
  | .ok r => OutLine.report r

/-- The `main` loop maps each job to its own outcome, independently. -/
theorem mainLoop_eq_map (jobs : List (String × Except String RawData)) :
    mainLoop jobs = jobs.map mainOut := by
  induction jobs with
  | nil => rfl
  | cons hd tl ih =>
    obtain ⟨sym, fetched⟩ := hd
    cases hh : analyze_ticker fetched sym <;>
      simp [mainLoop, mainOut, hh, ih]

/-- C9: a provider exception or a missing/empty required statement yields a
symbol-level error with no partial score; and the batch loop maps each symbol
independently to its own outcome in caller-supplied order, so one symbol's
error never aborts or perturbs the processing of the others. -/
theorem C9_error_isolation :
    (∀ e sym, analyze_ticker (.error e) sym
      = .error ("Failed to fetch data: " ++ e)) ∧
    (∀ d sym, (d.income.isEmpty || d.balance.isEmpty || d.cashflow.isEmpty) = true →
      analyze_ticker (.ok d) sym = .error "Missing financial statements") ∧
    (∀ jobs : List (String × Except String RawData),
      mainLoop jobs = jobs.map mainOut) ∧
    (∀ (pre post : List (String × Except String RawData))
        (x : String × Except String RawData),
      mainLoop (pre ++ x :: post) = mainLoop pre ++ mainLoop [x] ++ mainLoop post) := by
  refine ⟨fun e sym => rfl, ?_, mainLoop_eq_map, ?_⟩
  · intro d sym h
    unfold analyze_ticker
    simp only [h, if_true]
  · intro pre post x
    simp [mainLoop_eq_map]

/-- Witness for C9: a fetch failure, an empty income statement, and a
two-symbol batch whose first symbol errors while the second is still
processed in order. -/
theorem C9_witness :
    analyze_ticker (.error "boom") "AAPL" = .error "Failed to fetch data: boom" ∧
    analyze_ticker
      (.ok ⟨⟨0, []⟩, ⟨1, [("Total Assets", [1])]⟩, ⟨1, [("Operating Cash Flow", [2])]⟩,
        ⟨none, none, none, none⟩⟩) "MSFT" = .error "Missing financial statements" ∧
    mainLoop [("A", .error "x"), ("B", .error "y")]
      = [OutLine.err "A" "Failed to fetch data: x",
         OutLine.err "B" "Failed to fetch data: y"] :=
  ⟨C9_error_isolation.1 "boom" "AAPL",
   C9_error_isolation.2.1
     ⟨⟨0, []⟩, ⟨1, [("Total Assets", [1])]⟩, ⟨1, [("Operating Cash Flow", [2])]⟩,
       ⟨none, none, none, none⟩⟩ "MSFT" rfl,
   (C9_error_isolation.2.2.1 [("A", .error "x"), ("B", .error "y")]).trans rfl⟩
